import Mathlib

/-!
Verification of the campaign-spec validator / keyword normalizer
(`campaign_validator.py`) and of the conversational setup state machine
(`setup_agent.py`) of the dotler-web backend, as a shallow embedding.

Python's dynamically typed values are modelled by `Value`; the runtime
errors the code can raise are modelled by `PyErr`, so every embedded
operation is total with type `Except PyErr _`.  String primitives
(strip, upper, lower, slicing, replace) are modelled over `String.data`
lists of characters, matching Python's code-point semantics on the
ASCII inputs the programs handle.
-/

/-- A Python value, restricted to the shapes the two modules manipulate:
None, bool, int, str, list, and string-keyed dict. -/
inductive Value where
  | noneV : Value
  | boolV : Bool → Value
  | intV : Int → Value
  | strV : String → Value
  | listV : List Value → Value
  | dictV : List (String × Value) → Value

/-- The Python exceptions the embedded code can raise. -/
inductive PyErr where
  | validationError : String → PyErr
  | attributeError : PyErr
  | typeError : PyErr
  | keyError : PyErr
  | nameError : PyErr
deriving DecidableEq, Repr

/-- Equality on embedded results is decidable, so concrete runs can be
checked by `decide`. -/
instance (priority := low) exceptDecEq {ε α : Type} [DecidableEq ε] [DecidableEq α] :
    DecidableEq (Except ε α) := fun x y =>
  match x, y with
  | .ok a, .ok b =>
      if h : a = b then .isTrue (by rw [h]) else .isFalse (fun hc => by cases hc; exact h rfl)
  | .error a, .error b =>
      if h : a = b then .isTrue (by rw [h]) else .isFalse (fun hc => by cases hc; exact h rfl)
  | .ok _, .error _ => .isFalse (fun hc => Except.noConfusion hc)
  | .error _, .ok _ => .isFalse (fun hc => Except.noConfusion hc)

/-- Python's `sep.join(parts)`. -/
def pyJoin (sep : String) : List String → String
  | [] => ""
  | [x] => x
  | x :: xs => x ++ sep ++ pyJoin sep xs

/-- Python's `str.strip()` (whitespace from both ends). -/
def pyStrip (s : String) : String :=
  ⟨((s.data.dropWhile Char.isWhitespace).reverse.dropWhile Char.isWhitespace).reverse⟩

/-- Python's `str.lower()` (ASCII case folding suffices here). -/
def pyLower (s : String) : String := ⟨s.data.map Char.toLower⟩

/-- Python's `str.upper()` (ASCII case folding suffices here). -/
def pyUpper (s : String) : String := ⟨s.data.map Char.toUpper⟩

/-- Python's `s[:n]` slicing on strings (first `n` code points). -/
def strTake (s : String) (n : Nat) : String := ⟨s.data.take n⟩

/-- Python's `len` on strings (code points). -/
def strLen (s : String) : Nat := s.data.length

/-- Python's `s.replace("-", "")`: every hyphen removed. -/
def removeHyphens (s : String) : String := ⟨s.data.filter (fun c => c ≠ '-')⟩

/-- Python's `repr`, at the fidelity the validator's messages need
(it is never applied to strings containing quotes in any theorem below). -/
def pyRepr : Value → String
  | .noneV => "None"
  | .boolV b => if b then "True" else "False"
  | .intV n => toString n
  | .strV s => "'" ++ s ++ "'"
  | .listV xs => "[" ++ pyJoin ", " (xs.attach.map fun x => pyRepr x.1) ++ "]"
  | .dictV kvs =>
      "\x7b" ++ pyJoin ", " (kvs.attach.map fun x => "'" ++ x.1.1 ++ "': " ++ pyRepr x.1.2) ++ "\x7d"
termination_by v => sizeOf v
decreasing_by
  · have := List.sizeOf_lt_of_mem x.2
    simp only [Value.listV.sizeOf_spec]
    omega
  · have h1 := List.sizeOf_lt_of_mem x.2
    have h2 : sizeOf x.1.2 < sizeOf x.1 := by
      obtain ⟨a, b⟩ := x.1
      simp only [Prod.mk.sizeOf_spec]
      omega
    simp only [Value.dictV.sizeOf_spec]
    omega

/-- Python's `str()` coercion. -/
def pyStr : Value → String
  | .strV s => s
  | v => pyRepr v

/-- Python truthiness (`not x` tests). -/
def pyFalsy : Value → Bool
  | .noneV => true
  | .boolV b => !b
  | .intV n => n == 0
  | .strV s => s.data.isEmpty
  | .listV xs => xs.isEmpty
  | .dictV kvs => kvs.isEmpty

/-- The sequence Python iteration yields: a list yields its elements, a
string its characters (as one-character strings), a dict its keys.
`none` for the non-iterable shapes (which are also the unsized ones). -/
def pyIterL : Value → Option (List Value)
  | .strV s => some (s.data.map fun c => .strV ⟨[c]⟩)
  | .listV xs => some xs
  | .dictV kvs => some (kvs.map fun kv => .strV kv.1)
  | _ => none

/-- Python iteration, raising `TypeError` on non-iterables. -/
def pyIter (v : Value) : Except PyErr (List Value) :=
  match pyIterL v with
  | some l => .ok l
  | none => .error .typeError

/-- Python's `len`, raising `TypeError` on unsized values. -/
def pyLen (v : Value) : Except PyErr Nat := (pyIter v).map List.length

/-- Python's `dict.get(key, default)`. -/
def pyGet (kvs : List (String × Value)) (k : String) (dflt : Value) : Value :=
  match kvs.find? (fun kv => kv.1 == k) with
  | some kv => kv.2
  | none => dflt

/-- A character `urllib.parse` accepts inside a URL scheme. -/
def schemeChar (c : Char) : Bool := c.isAlphanum || c == '+' || c == '-' || c == '.'

/-- The `scheme` component `urllib.parse.urlparse` extracts: the (lowercased)
text before the first colon, when it is non-empty, starts with a letter and
consists of scheme characters; `""` otherwise. -/
def urlScheme (url : String) : String :=
  let cs := url.data
  let before := cs.takeWhile (fun c => c ≠ ':')
  if before.length == cs.length then ""
  else match before with
    | [] => ""
    | c :: rest => if c.isAlpha && (c :: rest).all schemeChar then pyLower ⟨c :: rest⟩ else ""

/-- The untyped campaign-specification mapping `validate_campaign_spec`
receives: each field either absent or bound to an arbitrary `Value`. -/
structure CampaignSpec where
  campaign_name : Option Value
  budget_amount_micros : Option Value
  keywords : Option Value
  headlines : Option Value
  descriptions : Option Value
  final_url : Option Value
  bidding_strategy : Option Value

/-- The campaign-name check of `validate_campaign_spec`
(`spec.get("campaign_name", "").strip()`: `AttributeError` on non-strings). -/
def nameErrs (spec : CampaignSpec) : Except PyErr (List String) :=
  match spec.campaign_name.getD (.strV "") with
  | .strV s =>
      let name := pyStrip s
      .ok (if name = "" then ["campaign_name is required"]
           else if 255 < strLen name then
             [s!"campaign_name exceeds 255 chars (got {strLen name})"]
           else [])
  | _ => .error .attributeError

/-- Whether a value is a Python number for `isinstance(budget, (int, float))`
(`bool` is a subclass of `int`; floats do not occur in this value universe). -/
def isNum : Value → Bool
  | .intV _ => true
  | .boolV _ => true
  | _ => false

/-- The numeric value used by `budget <= 0`. -/
def numVal : Value → Int
  | .intV n => n
  | .boolV b => if b then 1 else 0
  | _ => 0

/-- The budget check of `validate_campaign_spec` (never raises). -/
def budgetErrs (spec : CampaignSpec) : List String :=
  match spec.budget_amount_micros.getD .noneV with
  | .noneV => ["budget_amount_micros is required"]
  | b =>
      if !(isNum b) || numVal b ≤ 0 then
        [s!"budget_amount_micros must be > 0 (got {pyStr b})"]
      else []

/-- The three keyword match types accepted by the validator; the membership
test `kw.get("match_type") not in [...]` compares with `==`, which is false
for every non-string value. -/
def mtValid : Value → Bool
  | .strV s => s == "EXACT" || s == "PHRASE" || s == "BROAD"
  | _ => false

/-- The per-element keyword check of `validate_campaign_spec`
(`AttributeError` when a dict's `text` value is present and not a string). -/
def kwCheck (i : Nat) (kw : Value) : Except PyErr (List String) :=
  match kw with
  | .dictV kvs =>
      match pyGet kvs "text" (.strV "") with
      | .strV t =>
          let e1 := if pyStrip t = "" then [s!"Keyword {i} has empty text"] else []
          let mt := pyGet kvs "match_type" .noneV
          let e2 := if mtValid mt then []
                    else [s!"Keyword {i} has invalid match_type: {pyStr mt}"]
          .ok (e1 ++ e2)
      | _ => .error .attributeError
  | .strV s => .ok (if pyStrip s = "" then [s!"Keyword {i} is empty"] else [])
  | _ => .ok []

/-- The `for i, kw in enumerate(keywords)` loop of the keyword check. -/
def kwLoop (i : Nat) : List Value → Except PyErr (List String)
  | [] => .ok []
  | kw :: rest => do
      let e ← kwCheck i kw
      let es ← kwLoop (i + 1) rest
      .ok (e ++ es)

/-- The keywords check of `validate_campaign_spec`: `not keywords` short
circuits before `len(keywords)` is taken. -/
def kwErrs (spec : CampaignSpec) : Except PyErr (List String) :=
  let v := spec.keywords.getD (.listV [])
  if pyFalsy v then .ok ["At least 1 keyword is required"]
  else do
    let items ← pyIter v
    if items.length == 0 then .ok ["At least 1 keyword is required"]
    else kwLoop 0 items

/-- One element's outcome in the headline/description loops, structured:
the loop's `if not h_str / elif len > limit / elif h_str in seen` chain
produces at most one record per element. -/
inductive AssetErr where
  | emptyA : Nat → AssetErr
  | tooLong : Nat → Nat → AssetErr
  | dupA : Nat → String → AssetErr
deriving DecidableEq, Repr

/-- The list index an `AssetErr` is about. -/
def AssetErr.index : AssetErr → Nat
  | .emptyA i => i
  | .tooLong i _ => i
  | .dupA i _ => i

/-- The body of one iteration of the headline/description loop: `t` is the
already-trimmed element text, `seen` the trimmed texts of all earlier
elements. -/
def assetMsg (limit : Nat) (i : Nat) (t : String) (seen : List String) : List AssetErr :=
  if t = "" then [.emptyA i]
  else if limit < strLen t then [.tooLong i (strLen t)]
  else if t ∈ seen then [.dupA i t]
  else []

/-- The headline/description loop over the trimmed texts: `seen.add(h_str)`
runs on every iteration, so `seen` collects every earlier trimmed text. -/
def assetLoop (limit : Nat) (i : Nat) (seen : List String) : List String → List AssetErr
  | [] => []
  | t :: rest => assetMsg limit i t seen ++ assetLoop limit (i + 1) (seen ++ [t]) rest

/-- The f-strings the loop appends to `errors`. -/
def renderAsset (label : String) (limit : Nat) : AssetErr → String
  | .emptyA i => s!"{label} {i} is empty"
  | .tooLong i n => s!"{label} {i} exceeds {limit} chars (got {n})"
  | .dupA i t => s!"{label} {i} is duplicate: '{t}'"

/-- The headlines (`label = "Headline"`, `minCount = 3`, `limit = 30`) and
descriptions (`"Description"`, `2`, `90`) blocks of `validate_campaign_spec`,
which differ only in these constants. -/
def assetFieldErrs (label plural : String) (minCount limit : Nat) (v : Value) :
    Except PyErr (List String) := do
  let items ← pyIter v
  if items.length < minCount then
    .ok [s!"At least {minCount} {plural} required (got {items.length})"]
  else
    .ok ((assetLoop limit 0 [] (items.map fun h => pyStrip (pyStr h))).map
          (renderAsset label limit))

/-- The headlines check of `validate_campaign_spec`. -/
def headlineErrs (spec : CampaignSpec) : Except PyErr (List String) :=
  assetFieldErrs "Headline" "headlines" 3 30 (spec.headlines.getD (.listV []))

/-- The descriptions check of `validate_campaign_spec`. -/
def descriptionErrs (spec : CampaignSpec) : Except PyErr (List String) :=
  assetFieldErrs "Description" "descriptions" 2 90 (spec.descriptions.getD (.listV []))

/-- The final-URL check of `validate_campaign_spec`. -/
def urlErrs (spec : CampaignSpec) : Except PyErr (List String) :=
  match spec.final_url.getD (.strV "") with
  | .strV s =>
      let final_url := pyStrip s
      if final_url = "" then .ok ["final_url is required"]
      else
        let scheme := urlScheme final_url
        .ok (if scheme ≠ "https" then [s!"final_url must be HTTPS (got {scheme})"] else [])
  | _ => .error .attributeError

/-- The bidding-strategy check of `validate_campaign_spec`. -/
def bidErrs (spec : CampaignSpec) : Except PyErr (List String) :=
  match spec.bidding_strategy.getD (.strV "") with
  | .strV s =>
      let bidding := pyUpper s
      .ok (if bidding ∈ ["MAXIMIZE_CLICKS", "MAXIMIZE_CONVERSIONS", "TARGET_CPA", "MANUAL_CPC"]
           then [] else [s!"Invalid bidding_strategy: {bidding}"])
  | _ => .error .attributeError

/-- `validate_campaign_spec`: the field checks run in source order, their
messages are collected, and a non-empty collection raises
`CampaignValidationError("; ".join(errors))`; otherwise the spec itself is
returned. A dynamic-typing error inside a check aborts the whole call. -/
def validate_campaign_spec (spec : CampaignSpec) : Except PyErr CampaignSpec := do
  let n ← nameErrs spec
  let b := budgetErrs spec
  let k ← kwErrs spec
  let h ← headlineErrs spec
  let d ← descriptionErrs spec
  let u ← urlErrs spec
  let bs ← bidErrs spec
  let errors := n ++ b ++ k ++ h ++ d ++ u ++ bs
  if errors.isEmpty then .ok spec
  else .error (.validationError (pyJoin "; " errors))

/-- A normalized keyword as `normalize_keywords` emits it:
`{"text": ..., "match_type": ...}`. -/
structure NormalizedKw where
  text : String
  match_type : String
deriving DecidableEq, Repr

/-- `normalize_keywords`: dict keywords keep their (upper-cased) match type,
defaulting to `"BROAD"` only when the key is absent (`AttributeError` when it
is present and not a string); plain strings get `"BROAD"`; every other shape
is skipped. -/
def normalize_keywords : List Value → Except PyErr (List NormalizedKw)
  | [] => .ok []
  | kw :: rest => do
      let out ←
        match kw with
        | .dictV kvs =>
            let t := strTake (pyStrip (pyStr (pyGet kvs "text" (.strV "")))) 80
            match pyGet kvs "match_type" (.strV "BROAD") with
            | .strV mt => Except.ok [NormalizedKw.mk t (pyUpper mt)]
            | _ => Except.error PyErr.attributeError
        | .strV s => .ok [NormalizedKw.mk (strTake (pyStrip s) 80) "BROAD"]
        | _ => .ok []
      let rest2 ← normalize_keywords rest
      .ok (out ++ rest2)

/-- A word character for the `\w` class of `extract_value`'s patterns
(ASCII letters, digits, underscore). -/
def isWordChar (c : Char) : Bool := c.isAlphanum || c == '_'

/-- Case-insensitive literal matching: `pat` is given lowercased; on success
the rest of the input is returned. -/
def dropLitCI : List Char → List Char → Option (List Char)
  | [], rest => some rest
  | _ :: _, [] => none
  | p :: ps, c :: cs => if c.toLower == p then dropLitCI ps cs else none

/-- The `\s+` of `extract_value`'s patterns: at least one whitespace
character, consumed greedily. -/
def skipWS1 : List Char → Option (List Char)
  | [] => none
  | c :: cs => if c.isWhitespace then some (cs.dropWhile Char.isWhitespace) else none

/-- The `(\w+)` capture group: the maximal non-empty word-character run. -/
def captureWord (cs : List Char) : Option String :=
  let w := cs.takeWhile isWordChar
  if w.isEmpty then none else some ⟨w⟩

/-- One alternative of pattern 1, `my\s+(?:name|username)\s+is\s+(\w+)`,
anchored at the current position. -/
def matchMyNameIs (mid : List Char) (cs : List Char) : Option String := do
  let r1 ← dropLitCI "my".data cs
  let r2 ← skipWS1 r1
  let r3 ← dropLitCI mid r2
  let r4 ← skipWS1 r3
  let r5 ← dropLitCI "is".data r4
  let r6 ← skipWS1 r5
  captureWord r6

/-- Pattern 1 at the current position (regex alternation tries `name` first,
backtracking to `username`). -/
def pat1At (cs : List Char) : Option String :=
  matchMyNameIs "name".data cs <|> matchMyNameIs "username".data cs

/-- Pattern 2, `call\s+me\s+(\w+)`, at the current position. -/
def pat2At (cs : List Char) : Option String := do
  let r1 ← dropLitCI "call".data cs
  let r2 ← skipWS1 r1
  let r3 ← dropLitCI "me".data r2
  let r4 ← skipWS1 r3
  captureWord r4

/-- Pattern 3, `i'm\s+(\w+)`, at the current position. -/
def pat3At (cs : List Char) : Option String := do
  let r1 ← dropLitCI "i'm".data cs
  let r2 ← skipWS1 r1
  captureWord r2

/-- `re.search`: the pattern is tried at each position from the left. -/
def searchAll (f : List Char → Option String) : List Char → Option String
  | [] => f []
  | l@(_ :: t) => f l <|> searchAll f t

/-- Pattern 4, `^(\w+)$`: the whole (stripped) text is one word. -/
def wholeWord (cs : List Char) : Option String :=
  if !cs.isEmpty && cs.all isWordChar then some ⟨cs⟩ else none

/-- `extract_value`: strip the text, try the four greeting patterns in
order, fall back to the stripped text itself. -/
def extract_value (text : String) : String :=
  let t := pyStrip text
  let cs := t.data
  (((searchAll pat1At cs).orElse fun _ => searchAll pat2At cs).orElse
      (fun _ => (searchAll pat3At cs).orElse fun _ => wholeWord cs)).getD t

/-- The `step` field of a setup session. -/
inductive Step where
  | username | developer_token | manager_id | campaign_id | complete
deriving DecidableEq, Repr

/-- The `data` mapping of a setup session: the four fields
`setup_agent_chat` can store, each possibly absent. -/
structure SetupData where
  username : Option String
  developer_token : Option String
  manager_id : Option String
  campaign_id : Option String
deriving DecidableEq, Repr

/-- One per-user session of `SETUP_STATE`. -/
structure Session where
  step : Step
  data : SetupData
  history : List (String × String)
deriving DecidableEq, Repr

/-- The JSON object `setup_agent_chat` returns. -/
structure AgentReply where
  response : String
  complete : Bool
  data : Option SetupData
deriving DecidableEq, Repr

/-- The session `setup_agent_chat` creates for an unknown user id. -/
def freshSession : Session := ⟨.username, ⟨none, none, none, none⟩, []⟩

/-- The greeting `setup_agent_chat` sends after the username step. -/
def greetText (username : String) : String :=
  s!"Nice to meet you, {username}! 👋\n\nNow, I need your **Google Ads Developer Token**. This is a special key that lets us access your Google Ads data.\n\n**Where to find it:**\n1. Go to Google Ads\n2. Click Tools & Settings → API Center\n3. Copy your Developer Token\n\nPaste it here, or type 'help' if you need more guidance."

/-- The static guidance text of the `developer_token` step. -/
def devTokenHelpText : String :=
  "**How to get your Developer Token:**\n\n1. Sign in to Google Ads\n2. Click the tools icon (🔧) in the top right\n3. Under 'Setup', click 'API Center'\n4. You'll see your Developer Token there\n5. Click 'Copy' and paste it here\n\n**Note:** If you don't see it, you may need to request access first. This can take 24-48 hours for approval.\n\nReady to paste your token?"

/-- The reply after the developer token is stored. -/
def tokenSavedText : String :=
  "Great! Token saved. ✅\n\nNext, I need your **Manager Account ID** (also called MCC ID or Login Customer ID).\n\n**What is this?**\nThis is the ID of the Google Ads account that manages your campaigns. If you only have one account, use that account's ID.\n\n**Where to find it:**\nLook at the top right of your Google Ads dashboard - you'll see a number like `123-456-7890`.\n\nType 'help' if you need more info, or paste your Manager ID:"

/-- The static guidance text of the `manager_id` step. -/
def managerHelpText : String :=
  "**About Manager Account ID:**\n\nThis is the customer ID that has access to your campaigns.\n\n- If you have a **Manager Account (MCC)**: Use that ID\n- If you have a **single account**: Use your account's customer ID\n\n**Where to find it:**\n1. Go to Google Ads\n2. Look at the top right corner\n3. You'll see a number like `123-456-7890`\n4. That's your customer ID!\n\nPaste it here:"

/-- The reply after the manager id is stored. -/
def managerSavedText : String :=
  "Perfect! Manager ID saved. ✅\n\nLast step! I need the **Campaign Account ID** - this is the specific account whose campaigns you want to analyze.\n\n**Important:**\n- This might be the same as your Manager ID (if you only have one account)\n- Or it could be a different account that your Manager Account has access to\n\n**Format:** `123-456-7890`\n\nType 'same' if it's the same as your Manager ID, or paste the Campaign Account ID:"

/-- The static guidance text of the `campaign_id` step. -/
def campaignHelpText : String :=
  "**About Campaign Account ID:**\n\nThis is the account that actually runs your ad campaigns.\n\n- If you only have **one Google Ads account**: Type 'same'\n- If your Manager Account manages **multiple accounts**: Paste the specific account ID you want to analyze\n\n**Where to find it:**\n1. Go to Google Ads\n2. If you see multiple accounts, select the one you want\n3. The ID is shown in the top right (format: `123-456-7890`)\n\nType 'same' or paste the ID:"

/-- The completion summary (its f-string reads all four collected fields,
slicing the developer token to 10 characters). -/
def summaryText (u tok10 mid cid : String) : String :=
  s!"🎉 **Setup Complete!**\n\nHere's what I've collected:\n\n✅ Username: {u}\n✅ Developer Token: {tok10}...\n✅ Manager ID: {mid}\n✅ Campaign ID: {cid}\n\nI'm now saving this configuration and fetching your campaign data. This may take a moment..."

/-- The static notice of the terminal `complete` step. -/
def alreadyCompleteText : String :=
  "Your setup is already complete! You can now access your dashboard."

/-- The completion summary over the session data: `KeyError` when a field
the f-string indexes is absent. -/
def buildSummary (d : SetupData) : Except PyErr String :=
  match d.username, d.developer_token, d.manager_id, d.campaign_id with
  | some u, some tok, some mid, some cid => .ok (summaryText u (strTake tok 10) mid cid)
  | _, _, _, _ => .error .keyError

/-- `setup_agent_chat` on one session: the inbound message is appended to
the history, then the step dispatch of the source runs.  The campaign_id
step mirrors the source exactly: its three-way branch either stores a
campaign id, raises `KeyError` (`state["data"]["manager_id"]` on `same`
with no stored manager id), or only sets the help response; afterwards the
`if "campaign_id" in state["data"]` block completes the setup.  A path that
would reach the final reply with `response` unassigned is Python's
`UnboundLocalError`, modelled as `nameError`. -/
def setup_agent_chat (st : Session) (message : String) : Except PyErr (Session × AgentReply) :=
  let st1 : Session := { st with history := st.history ++ [("user", message)] }
  match st1.step with
  | .username =>
      let username := extract_value message
      let st2 := { st1 with
        data := { st1.data with username := some username },
        step := .developer_token }
      let response := greetText username
      .ok ({ st2 with history := st2.history ++ [("assistant", response)] },
           ⟨response, false, none⟩)
  | .developer_token =>
      if pyLower message = "help" then
        .ok ({ st1 with history := st1.history ++ [("assistant", devTokenHelpText)] },
             ⟨devTokenHelpText, false, none⟩)
      else
        let st2 := { st1 with
          data := { st1.data with developer_token := some (pyStrip message) },
          step := .manager_id }
        .ok ({ st2 with history := st2.history ++ [("assistant", tokenSavedText)] },
             ⟨tokenSavedText, false, none⟩)
  | .manager_id =>
      if pyLower message = "help" then
        .ok ({ st1 with history := st1.history ++ [("assistant", managerHelpText)] },
             ⟨managerHelpText, false, none⟩)
      else
        let st2 := { st1 with
          data := { st1.data with manager_id := some (removeHyphens (pyStrip message)) },
          step := .campaign_id }
        .ok ({ st2 with history := st2.history ++ [("assistant", managerSavedText)] },
             ⟨managerSavedText, false, none⟩)
  | .campaign_id => do
      let branch : Except PyErr (Session × Option String) :=
        if pyLower message = "same" then
          match st1.data.manager_id with
          | none => .error .keyError
          | some mid => .ok ({ st1 with data := { st1.data with campaign_id := some mid } }, none)
        else if pyLower message = "help" then
          .ok (st1, some campaignHelpText)
        else
          .ok ({ st1 with data := { st1.data with campaign_id := some (removeHyphens (pyStrip message)) } },
               none)
      let (st2, respOpt) ← branch
      match st2.data.campaign_id with
      | some _ => do
          let st3 := { st2 with step := .complete }
          let response ← buildSummary st3.data
          .ok (st3, ⟨response, true, some st3.data⟩)
      | none =>
          match respOpt with
          | some response =>
              .ok ({ st2 with history := st2.history ++ [("assistant", response)] },
                   ⟨response, false, none⟩)
          | none => .error .nameError
  | .complete =>
      .ok (st1, ⟨alreadyCompleteText, true, some st1.data⟩)

/-- The sessions reachable from a fresh session by any sequence of
messages (only non-raising turns produce a next session). -/
inductive Reachable : Session → Prop where
  | base : Reachable freshSession
  | next {st st' : Session} {m : String} {r : AgentReply} :
      Reachable st → setup_agent_chat st m = .ok (st', r) → Reachable st'

/-- Whether a field value is absent or a string — exactly the condition
under which `spec.get(field, "").strip()` / `.upper()` cannot raise. -/
def strShape : Option Value → Bool
  | none => true
  | some (.strV _) => true
  | some _ => false

/-- Whether a keyword element cannot make `kw.get("text", "").strip()`
raise: every non-dict passes, a dict needs an absent-or-string `text`. -/
def dictTextOk : Value → Bool
  | .dictV kvs =>
      match pyGet kvs "text" (.strV "") with
      | .strV _ => true
      | _ => false
  | _ => true

/-- Whether the keywords field cannot make its check raise: either falsy
(the `not keywords` short circuit) or iterable with crash-free elements. -/
def kwShape (ov : Option Value) : Bool :=
  let v := ov.getD (.listV [])
  if pyFalsy v then true
  else
    match pyIterL v with
    | some items => items.all dictTextOk
    | none => false

/-- Whether a headlines/descriptions field value supports `len`. -/
def sizedShape (ov : Option Value) : Bool := (pyIterL (ov.getD (.listV []))).isSome

/-- The largest domain on which `validate_campaign_spec` cannot hit a
dynamic-typing error: string-or-absent text fields, sized sequence fields,
crash-free keyword elements (the budget value is unconstrained). -/
def wellShaped (spec : CampaignSpec) : Bool :=
  strShape spec.campaign_name && kwShape spec.keywords && sizedShape spec.headlines &&
    sizedShape spec.descriptions && strShape spec.final_url && strShape spec.bidding_strategy

/-- A keyword element that produces no validation message: a dict with
non-empty trimmed text and a valid match type, a non-empty string, or any
other shape (which the loop skips without checking). -/
def kwOk : Value → Bool
  | .dictV kvs =>
      (match pyGet kvs "text" (.strV "") with
       | .strV t => !(pyStrip t == "")
       | _ => false) &&
      mtValid (pyGet kvs "match_type" .noneV)
  | .strV s => !(pyStrip s == "")
  | _ => true

/-- Whether a keyword element cannot make `normalize_keywords` raise: a
dict needs an absent-or-string `match_type` (its `text` is `str()`-coerced
and safe). -/
def mtShapeOk : Value → Bool
  | .dictV kvs =>
      match pyGet kvs "match_type" (.strV "BROAD") with
      | .strV _ => true
      | _ => false
  | _ => true

/-- What `normalize_keywords` emits for one element when it does not raise:
`none` for the skipped shapes. -/
def normOne : Value → Option NormalizedKw
  | .dictV kvs =>
      match pyGet kvs "match_type" (.strV "BROAD") with
      | .strV mt =>
          some ⟨strTake (pyStrip (pyStr (pyGet kvs "text" (.strV "")))) 80, pyUpper mt⟩
      | _ => none
  | .strV s => some ⟨strTake (pyStrip s) 80, "BROAD"⟩
  | _ => none

/-- The static guidance text each non-initial step re-emits on `help`. -/
def stepHelpText : Step → String
  | .developer_token => devTokenHelpText
  | .manager_id => managerHelpText
  | .campaign_id => campaignHelpText
  | _ => ""

/-- The step/data invariant of reachable sessions: the collected data is
exactly as far along as the step, and `campaign_id` is only ever populated
in the `complete` step. -/
def SInv (st : Session) : Prop :=
  (st.step = .username → st.data.campaign_id = none) ∧
  (st.step = .developer_token →
    (∃ u, st.data.username = some u) ∧ st.data.campaign_id = none) ∧
  (st.step = .manager_id →
    (∃ u, st.data.username = some u) ∧ (∃ t, st.data.developer_token = some t) ∧
    st.data.campaign_id = none) ∧
  (st.step = .campaign_id →
    (∃ u, st.data.username = some u) ∧ (∃ t, st.data.developer_token = some t) ∧
    (∃ g, st.data.manager_id = some g) ∧ st.data.campaign_id = none) ∧
  (st.step = .complete →
    (∃ u, st.data.username = some u) ∧ (∃ t, st.data.developer_token = some t) ∧
    (∃ g, st.data.manager_id = some g) ∧ ∃ c, st.data.campaign_id = some c)

/-- A fully valid campaign specification, used as concrete input. -/
def validSpec : CampaignSpec :=
  { campaign_name := some (.strV "Summer Sale")
    budget_amount_micros := some (.intV 5000000)
    keywords := some (.listV [.dictV [("text", .strV "running shoes"), ("match_type", .strV "BROAD")]])
    headlines := some (.listV [.strV "One", .strV "Two", .strV "Three"])
    descriptions := some (.listV [.strV "First description", .strV "Second description"])
    final_url := some (.strV "https://example.com")
    bidding_strategy := some (.strV "MAXIMIZE_CLICKS") }

/-- A spec whose campaign name is an integer: `int` has no `.strip`. -/
def badTypedSpec : CampaignSpec :=
  { campaign_name := some (.intV 5), budget_amount_micros := none, keywords := none,
    headlines := none, descriptions := none, final_url := none, bidding_strategy := none }

/-- A 31-character headline text. -/
def a31 : String := "AAAAAAAAAAAAAAAAAAAAAAAAAAAAAAA"

/-- An otherwise valid spec with a missing budget and a repeated over-long
headline (two field rules violated; headline 1 is over-long AND a
duplicate of headline 0). -/
def doubleFaultSpec : CampaignSpec :=
  { validSpec with budget_amount_micros := none,
                   headlines := some (.listV [.strV a31, .strV a31, .strV "Buy now"]) }

/-- An otherwise valid spec whose two headlines are identical (and too few). -/
def twoDupHeadlinesSpec : CampaignSpec :=
  { validSpec with headlines := some (.listV [.strV "", .strV ""]) }

/-- An otherwise valid spec with three headlines of which the third repeats
the first. -/
def dupHeadlineSpec : CampaignSpec :=
  { validSpec with headlines := some (.listV [.strV "Buy", .strV "Now", .strV "Buy"]) }

/-- The session after turn 1 (`"Alex"`) of the scenario. -/
def sess1 : Session :=
  ⟨.developer_token, ⟨some "Alex", none, none, none⟩,
   [("user", "Alex"), ("assistant", greetText "Alex")]⟩

/-- The session after turn 2 (`"help"`). -/
def sess2 : Session :=
  ⟨.developer_token, ⟨some "Alex", none, none, none⟩,
   sess1.history ++ [("user", "help"), ("assistant", devTokenHelpText)]⟩

/-- The session after turn 3 (`"tok_123"`). -/
def sess3 : Session :=
  ⟨.manager_id, ⟨some "Alex", some "tok_123", none, none⟩,
   sess2.history ++ [("user", "tok_123"), ("assistant", tokenSavedText)]⟩

/-- The session after turn 4 (`"123-456-7890"`). -/
def sess4 : Session :=
  ⟨.campaign_id, ⟨some "Alex", some "tok_123", some "1234567890", none⟩,
   sess3.history ++ [("user", "123-456-7890"), ("assistant", managerSavedText)]⟩

/-- The data collected by the end of the scenario. -/
def scenData : SetupData := ⟨some "Alex", some "tok_123", some "1234567890", some "1234567890"⟩

/-- The session after turn 5 (`"same"`): complete, no assistant line. -/
def sess5 : Session := ⟨.complete, scenData, sess4.history ++ [("user", "same")]⟩

/-- A completed session used as concrete input. -/
def doneSession : Session := ⟨.complete, scenData, []⟩

theorem chat_username (d : SetupData) (hi : List (String × String)) (m : String) :
    setup_agent_chat ⟨.username, d, hi⟩ m =
      .ok (⟨.developer_token, { d with username := some (extract_value m) },
            (hi ++ [("user", m)]) ++ [("assistant", greetText (extract_value m))]⟩,
           ⟨greetText (extract_value m), false, none⟩) := rfl

theorem chat_dev_help (d : SetupData) (hi : List (String × String)) (m : String)
    (hm : pyLower m = "help") :
    setup_agent_chat ⟨.developer_token, d, hi⟩ m =
      .ok (⟨.developer_token, d, (hi ++ [("user", m)]) ++ [("assistant", devTokenHelpText)]⟩,
           ⟨devTokenHelpText, false, none⟩) := by
  simp [setup_agent_chat, hm]

theorem chat_dev_store (d : SetupData) (hi : List (String × String)) (m : String)
    (hm : ¬ pyLower m = "help") :
    setup_agent_chat ⟨.developer_token, d, hi⟩ m =
      .ok (⟨.manager_id, { d with developer_token := some (pyStrip m) },
            (hi ++ [("user", m)]) ++ [("assistant", tokenSavedText)]⟩,
           ⟨tokenSavedText, false, none⟩) := by
  simp [setup_agent_chat, hm]

theorem chat_man_help (d : SetupData) (hi : List (String × String)) (m : String)
    (hm : pyLower m = "help") :
    setup_agent_chat ⟨.manager_id, d, hi⟩ m =
      .ok (⟨.manager_id, d, (hi ++ [("user", m)]) ++ [("assistant", managerHelpText)]⟩,
           ⟨managerHelpText, false, none⟩) := by
  simp [setup_agent_chat, hm]

theorem chat_man_store (d : SetupData) (hi : List (String × String)) (m : String)
    (hm : ¬ pyLower m = "help") :
    setup_agent_chat ⟨.manager_id, d, hi⟩ m =
      .ok (⟨.campaign_id, { d with manager_id := some (removeHyphens (pyStrip m)) },
            (hi ++ [("user", m)]) ++ [("assistant", managerSavedText)]⟩,
           ⟨managerSavedText, false, none⟩) := by
  simp [setup_agent_chat, hm]

theorem chat_camp_same (d : SetupData) (hi : List (String × String)) (m u t g : String)
    (hm : pyLower m = "same") (hu : d.username = some u)
    (ht : d.developer_token = some t) (hg : d.manager_id = some g) :
    setup_agent_chat ⟨.campaign_id, d, hi⟩ m =
      .ok (⟨.complete, { d with campaign_id := some g }, hi ++ [("user", m)]⟩,
           ⟨summaryText u (strTake t 10) g g, true, some { d with campaign_id := some g }⟩) := by
  simp [setup_agent_chat, Bind.bind, Except.bind, hm, hg, buildSummary, hu, ht]

theorem chat_camp_help (d : SetupData) (hi : List (String × String)) (m : String)
    (hm1 : ¬ pyLower m = "same") (hm2 : pyLower m = "help") (hc : d.campaign_id = none) :
    setup_agent_chat ⟨.campaign_id, d, hi⟩ m =
      .ok (⟨.campaign_id, d, (hi ++ [("user", m)]) ++ [("assistant", campaignHelpText)]⟩,
           ⟨campaignHelpText, false, none⟩) := by
  simp [setup_agent_chat, Bind.bind, Except.bind, hm1, hm2, hc]

theorem chat_camp_store (d : SetupData) (hi : List (String × String)) (m u t g : String)
    (hm1 : ¬ pyLower m = "same") (hm2 : ¬ pyLower m = "help") (hu : d.username = some u)
    (ht : d.developer_token = some t) (hg : d.manager_id = some g) :
    setup_agent_chat ⟨.campaign_id, d, hi⟩ m =
      .ok (⟨.complete, { d with campaign_id := some (removeHyphens (pyStrip m)) },
            hi ++ [("user", m)]⟩,
           ⟨summaryText u (strTake t 10) g (removeHyphens (pyStrip m)), true,
            some { d with campaign_id := some (removeHyphens (pyStrip m)) }⟩) := by
  simp [setup_agent_chat, Bind.bind, Except.bind, hm1, hm2, buildSummary, hu, ht, hg]

theorem chat_complete (d : SetupData) (hi : List (String × String)) (m : String) :
    setup_agent_chat ⟨.complete, d, hi⟩ m =
      .ok (⟨.complete, d, hi ++ [("user", m)]⟩, ⟨alreadyCompleteText, true, some d⟩) := rfl

theorem sinv_step_total (st : Session) (hs : SInv st) (m : String) :
    ∃ st' r, setup_agent_chat st m = .ok (st', r) ∧ SInv st' := by
  obtain ⟨sp, d, hi⟩ := st
  obtain ⟨hum, hdev, hman, hcamp, hcompl⟩ := hs
  dsimp only at hum hdev hman hcamp hcompl
  cases sp with
  | username =>
      have hc := hum rfl
      exact ⟨_, _, chat_username d hi m, by simp [SInv, hc]⟩
  | developer_token =>
      obtain ⟨⟨u, hu⟩, hc⟩ := hdev rfl
      by_cases hm : pyLower m = "help"
      · exact ⟨_, _, chat_dev_help d hi m hm, by simp [SInv, hu, hc]⟩
      · exact ⟨_, _, chat_dev_store d hi m hm, by simp [SInv, hu, hc]⟩
  | manager_id =>
      obtain ⟨⟨u, hu⟩, ⟨t, ht⟩, hc⟩ := hman rfl
      by_cases hm : pyLower m = "help"
      · exact ⟨_, _, chat_man_help d hi m hm, by simp [SInv, hu, ht, hc]⟩
      · exact ⟨_, _, chat_man_store d hi m hm, by simp [SInv, hu, ht, hc]⟩
  | campaign_id =>
      obtain ⟨⟨u, hu⟩, ⟨t, ht⟩, ⟨g, hg⟩, hc⟩ := hcamp rfl
      by_cases hm1 : pyLower m = "same"
      · exact ⟨_, _, chat_camp_same d hi m u t g hm1 hu ht hg, by simp [SInv, hu, ht, hg]⟩
      · by_cases hm2 : pyLower m = "help"
        · exact ⟨_, _, chat_camp_help d hi m hm1 hm2 hc, by simp [SInv, hu, ht, hg, hc]⟩
        · exact ⟨_, _, chat_camp_store d hi m u t g hm1 hm2 hu ht hg,
            by simp [SInv, hu, ht, hg]⟩
  | complete =>
      obtain ⟨⟨u, hu⟩, ⟨t, ht⟩, ⟨g, hg⟩, ⟨c, hcid⟩⟩ := hcompl rfl
      exact ⟨_, _, chat_complete d hi m, by simp [SInv, hu, ht, hg, hcid]⟩

theorem reachable_SInv (st : Session) (h : Reachable st) : SInv st := by
  induction h with
  | base => simp [SInv, freshSession]
  | next h1 h2 ih =>
      obtain ⟨st2, r2, heq, hs2⟩ := sinv_step_total _ ih _
      rw [h2] at heq
      injection heq with h3
      rw [show st2 = _ from (congrArg Prod.fst h3).symm] at hs2
      exact hs2

/-- C6: starting from a fresh session, turn 1 "Alex" greets Alex and moves to
developer_token; turn 2 "help" stays at developer_token with the static
guidance text and stores nothing; turn 3 "tok_123" stores the developer token
and moves to manager_id; turn 4 "123-456-7890" stores manager_id "1234567890"
and moves to campaign_id; turn 5 "same" copies the manager id into
campaign_id, completes, and the reply carries complete = true with all four
collected fields. -/
theorem c6_scenario :
    setup_agent_chat freshSession "Alex" = .ok (sess1, ⟨greetText "Alex", false, none⟩) ∧
    setup_agent_chat sess1 "help" = .ok (sess2, ⟨devTokenHelpText, false, none⟩) ∧
    setup_agent_chat sess2 "tok_123" = .ok (sess3, ⟨tokenSavedText, false, none⟩) ∧
    setup_agent_chat sess3 "123-456-7890" = .ok (sess4, ⟨managerSavedText, false, none⟩) ∧
    setup_agent_chat sess4 "same" =
      .ok (sess5, ⟨summaryText "Alex" "tok_123" "1234567890" "1234567890", true, some scenData⟩) ∧
    sess5.step = .complete ∧ sess5.data = scenData :=
  ⟨rfl, rfl, rfl, rfl, rfl, rfl, rfl⟩

/-- C7: on every session reachable from a fresh session, every message
produces a reply; no exception escapes the state machine. -/
theorem c7_never_raises (st : Session) (h : Reachable st) (m : String) :
    ∃ out, setup_agent_chat st m = .ok out := by
  obtain ⟨st2, r2, heq, -⟩ := sinv_step_total st (reachable_SInv st h) m
  exact ⟨(st2, r2), heq⟩

theorem c7_witness : ∃ out, setup_agent_chat freshSession "hello" = .ok out :=
  c7_never_raises freshSession Reachable.base "hello"

/-- C8 counterexample: at the initial username step the message "help" is not
treated as a pseudo-command — it is stored as the username and the step
advances to developer_token, contradicting the claim for that step. -/
theorem c8_counterexample :
    setup_agent_chat freshSession "help" =
      .ok (⟨.developer_token, ⟨some "help", none, none, none⟩,
            [("user", "help"), ("assistant", greetText "help")]⟩,
           ⟨greetText "help", false, none⟩) := rfl

/-- C8 (amended): at the developer_token, manager_id and campaign_id steps — but
not at the initial username step — a message that case-insensitively equals
"help" re-emits the step's guidance text without advancing the step and
without recording any data. -/
theorem c8_amended (st : Session) (m : String) (hre : Reachable st)
    (hstep : st.step = .developer_token ∨ st.step = .manager_id ∨ st.step = .campaign_id)
    (hm : pyLower m = "help") :
    setup_agent_chat st m =
      .ok ({ st with history := st.history ++ [("user", m), ("assistant", stepHelpText st.step)] },
           ⟨stepHelpText st.step, false, none⟩) := by
  have hsi := reachable_SInv st hre
  obtain ⟨sp, d, hi⟩ := st
  obtain ⟨hum, hdev, hman, hcamp, hcompl⟩ := hsi
  dsimp only at hum hdev hman hcamp hcompl hstep ⊢
  rcases hstep with h | h | h
  · subst h
    rw [chat_dev_help d hi m hm]
    simp [stepHelpText]
  · subst h
    rw [chat_man_help d hi m hm]
    simp [stepHelpText]
  · subst h
    have hm1 : ¬ pyLower m = "same" := by rw [hm]; decide
    have hc := (hcamp rfl).2.2.2
    rw [chat_camp_help d hi m hm1 hm hc]
    simp [stepHelpText]

theorem c8_witness :
    setup_agent_chat sess1 "HELP" =
      .ok ({ sess1 with
             history := sess1.history ++ [("user", "HELP"), ("assistant", stepHelpText sess1.step)] },
           ⟨stepHelpText sess1.step, false, none⟩) :=
  c8_amended sess1 "HELP"
    (Reachable.next Reachable.base
      (show setup_agent_chat freshSession "Alex" =
          Except.ok (sess1, AgentReply.mk (greetText "Alex") false none) from rfl))
    (Or.inl rfl) (by decide)

/-- C9: once a session's step is complete, any further message returns
complete = true with the existing collected data, and leaves the step and the
data unchanged (only the inbound message is appended to the history). -/
theorem c9_complete_idempotent (st : Session) (m : String) (h : st.step = .complete) :
    setup_agent_chat st m =
      .ok ({ st with history := st.history ++ [("user", m)] },
           ⟨alreadyCompleteText, true, some st.data⟩) := by
  obtain ⟨sp, d, hi⟩ := st
  dsimp only at h
  subst h
  exact chat_complete d hi m

theorem c9_witness :
    setup_agent_chat doneSession "again" =
      .ok (⟨.complete, scenData, [("user", "again")]⟩,
           ⟨alreadyCompleteText, true, some scenData⟩) :=
  c9_complete_idempotent doneSession "again" rfl

/-- C10: in every reachable session the collected data matches the step's
progress — developer_token implies a stored username, manager_id adds the
developer token, campaign_id adds the manager id, and complete has all four
fields, so the "same" shortcut and the completion summary never miss a key. -/
theorem c10_data_matches_step (st : Session) (h : Reachable st) :
    (st.step = .developer_token → ∃ u, st.data.username = some u) ∧
    (st.step = .manager_id →
      (∃ u, st.data.username = some u) ∧ ∃ t, st.data.developer_token = some t) ∧
    (st.step = .campaign_id →
      (∃ u, st.data.username = some u) ∧ (∃ t, st.data.developer_token = some t) ∧
      ∃ g, st.data.manager_id = some g) ∧
    (st.step = .complete →
      (∃ u, st.data.username = some u) ∧ (∃ t, st.data.developer_token = some t) ∧
      (∃ g, st.data.manager_id = some g) ∧ ∃ c, st.data.campaign_id = some c) := by
  obtain ⟨-, hdev, hman, hcamp, hcompl⟩ := reachable_SInv st h
  exact ⟨fun hs => (hdev hs).1, fun hs => ⟨(hman hs).1, (hman hs).2.1⟩,
         fun hs => ⟨(hcamp hs).1, (hcamp hs).2.1, (hcamp hs).2.2.1⟩, hcompl⟩

theorem c10_witness :
    (sess1.step = .developer_token → ∃ u, sess1.data.username = some u) ∧
    (sess1.step = .manager_id →
      (∃ u, sess1.data.username = some u) ∧ ∃ t, sess1.data.developer_token = some t) ∧
    (sess1.step = .campaign_id →
      (∃ u, sess1.data.username = some u) ∧ (∃ t, sess1.data.developer_token = some t) ∧
      ∃ g, sess1.data.manager_id = some g) ∧
    (sess1.step = .complete →
      (∃ u, sess1.data.username = some u) ∧ (∃ t, sess1.data.developer_token = some t) ∧
      (∃ g, sess1.data.manager_id = some g) ∧ ∃ c, sess1.data.campaign_id = some c) :=
  c10_data_matches_step sess1
    (Reachable.next Reachable.base
      (show setup_agent_chat freshSession "Alex" =
          Except.ok (sess1, AgentReply.mk (greetText "Alex") false none) from rfl))

theorem validate_eq (spec : CampaignSpec) (n k h d u bs : List String)
    (hn : nameErrs spec = .ok n) (hk : kwErrs spec = .ok k)
    (hh : headlineErrs spec = .ok h) (hd : descriptionErrs spec = .ok d)
    (hu : urlErrs spec = .ok u) (hb : bidErrs spec = .ok bs) :
    validate_campaign_spec spec =
      if (n ++ budgetErrs spec ++ k ++ h ++ d ++ u ++ bs).isEmpty then .ok spec
      else .error (.validationError (pyJoin "; " (n ++ budgetErrs spec ++ k ++ h ++ d ++ u ++ bs))) := by
  simp [validate_campaign_spec, Bind.bind, Except.bind, hn, hk, hh, hd, hu, hb]

theorem nameErrs_ok (spec : CampaignSpec) (h : strShape spec.campaign_name = true) :
    ∃ l, nameErrs spec = .ok l := by
  cases hc : spec.campaign_name with
  | none => simp only [nameErrs, hc, Option.getD]; exact ⟨_, rfl⟩
  | some v =>
      rcases v with _ | b | n | s | xs | kvs <;> simp_all [strShape]
      simp only [nameErrs, hc, Option.getD]
      exact ⟨_, rfl⟩

theorem kwCheck_ok (i : Nat) (kw : Value) (h : dictTextOk kw = true) :
    ∃ l, kwCheck i kw = .ok l := by
  rcases kw with _ | b | n | s | xs | kvs
  case dictV =>
    cases hpg : pyGet kvs "text" (.strV "") <;> simp_all [kwCheck, dictTextOk]
  all_goals simp [kwCheck]

theorem kwLoop_ok (items : List Value) :
    ∀ i, (∀ kw ∈ items, dictTextOk kw = true) → ∃ l, kwLoop i items = .ok l := by
  induction items with
  | nil => exact fun i _ => ⟨[], rfl⟩
  | cons kw rest ih =>
      intro i h
      obtain ⟨l1, h1⟩ := kwCheck_ok i kw (h kw (by simp))
      obtain ⟨l2, h2⟩ := ih (i + 1) (fun x hx => h x (by simp [hx]))
      exact ⟨l1 ++ l2, by simp [kwLoop, Bind.bind, Except.bind, h1, h2]⟩

theorem kwErrs_ok (spec : CampaignSpec) (h : kwShape spec.keywords = true) :
    ∃ l, kwErrs spec = .ok l := by
  unfold kwShape at h
  by_cases hf : pyFalsy (spec.keywords.getD (.listV []))
  · simp only [kwErrs, hf]; exact ⟨_, rfl⟩
  · simp only [hf, Bool.false_eq_true, if_false] at h
    cases hit : pyIterL (spec.keywords.getD (.listV [])) with
    | none => rw [hit] at h; simp at h
    | some items =>
        rw [hit] at h
        by_cases hlen : (items.length == 0) = true
        · simp only [kwErrs, hf, pyIter, hit, Bind.bind, Except.bind, hlen]
          exact ⟨_, rfl⟩
        · obtain ⟨l, hl⟩ := kwLoop_ok items 0 (by
            intro kw hkw
            exact List.all_eq_true.mp h kw hkw)
          exact ⟨l, by simp [kwErrs, hf, pyIter, hit, Bind.bind, Except.bind, hlen, hl]⟩

theorem assetFieldErrs_ok (label plural : String) (mc lim : Nat) (ov : Option Value)
    (h : sizedShape ov = true) :
    ∃ l, assetFieldErrs label plural mc lim (ov.getD (.listV [])) = .ok l := by
  unfold sizedShape at h
  cases hit : pyIterL (ov.getD (.listV [])) with
  | none => rw [hit] at h; simp at h
  | some items =>
      unfold assetFieldErrs
      simp only [pyIter, hit, Bind.bind, Except.bind]
      by_cases hlen : items.length < mc <;> simp [hlen]

theorem headlineErrs_ok (spec : CampaignSpec) (h : sizedShape spec.headlines = true) :
    ∃ l, headlineErrs spec = .ok l := by
  simpa [headlineErrs] using assetFieldErrs_ok "Headline" "headlines" 3 30 spec.headlines h

theorem descriptionErrs_ok (spec : CampaignSpec) (h : sizedShape spec.descriptions = true) :
    ∃ l, descriptionErrs spec = .ok l := by
  simpa [descriptionErrs] using
    assetFieldErrs_ok "Description" "descriptions" 2 90 spec.descriptions h

theorem urlErrs_ok (spec : CampaignSpec) (h : strShape spec.final_url = true) :
    ∃ l, urlErrs spec = .ok l := by
  cases hc : spec.final_url with
  | none => simp only [urlErrs, hc, Option.getD]; exact ⟨_, rfl⟩
  | some v =>
      rcases v with _ | b | n | s | xs | kvs <;> simp_all [strShape]
      simp only [urlErrs, hc, Option.getD]
      split
      · exact ⟨_, rfl⟩
      · exact ⟨_, rfl⟩

theorem bidErrs_ok (spec : CampaignSpec) (h : strShape spec.bidding_strategy = true) :
    ∃ l, bidErrs spec = .ok l := by
  cases hc : spec.bidding_strategy with
  | none => simp only [bidErrs, hc, Option.getD]; exact ⟨_, rfl⟩
  | some v =>
      rcases v with _ | b | n | s | xs | kvs <;> simp_all [strShape]
      simp only [bidErrs, hc, Option.getD]
      exact ⟨_, rfl⟩

/-- C1 counterexample: a mapping whose campaign_name is the integer 5 makes
validate raise AttributeError (int has no .strip), not a ValidationError —
so validate does not, for arbitrary value shapes, fail only with a
ValidationError. -/
theorem c1_counterexample :
    validate_campaign_spec badTypedSpec = .error .attributeError := rfl

/-- C1 (amended): for every input mapping whose campaign_name, final_url and
bidding_strategy are strings when present, whose headlines and descriptions
are sized sequences when present, and whose keywords field is falsy or an
iterable whose dict elements carry a string (or absent) text — validate
either returns the spec unchanged or fails with a ValidationError whose
message is the semicolon-joined concatenation of every individual violation
message, in the field order name, budget, keywords, headlines, descriptions,
final_url, bidding_strategy; on such inputs no other exception escapes. -/
theorem c1_amended (spec : CampaignSpec) (hw : wellShaped spec = true) :
    ∃ n k h d u bs : List String,
      nameErrs spec = .ok n ∧ kwErrs spec = .ok k ∧ headlineErrs spec = .ok h ∧
      descriptionErrs spec = .ok d ∧ urlErrs spec = .ok u ∧ bidErrs spec = .ok bs ∧
      ((n ++ budgetErrs spec ++ k ++ h ++ d ++ u ++ bs = [] ∧
          validate_campaign_spec spec = .ok spec) ∨
        (n ++ budgetErrs spec ++ k ++ h ++ d ++ u ++ bs ≠ [] ∧
          validate_campaign_spec spec =
            .error (.validationError
              (pyJoin "; " (n ++ budgetErrs spec ++ k ++ h ++ d ++ u ++ bs))))) := by
  unfold wellShaped at hw
  simp only [Bool.and_eq_true] at hw
  obtain ⟨⟨⟨⟨⟨h1, h2⟩, h3⟩, h4⟩, h5⟩, h6⟩ := hw
  obtain ⟨n, hn⟩ := nameErrs_ok spec h1
  obtain ⟨k, hk⟩ := kwErrs_ok spec h2
  obtain ⟨h, hh⟩ := headlineErrs_ok spec h3
  obtain ⟨d, hd⟩ := descriptionErrs_ok spec h4
  obtain ⟨u, hu⟩ := urlErrs_ok spec h5
  obtain ⟨bs, hb⟩ := bidErrs_ok spec h6
  refine ⟨n, k, h, d, u, bs, hn, hk, hh, hd, hu, hb, ?_⟩
  by_cases he : (n ++ budgetErrs spec ++ k ++ h ++ d ++ u ++ bs).isEmpty = true
  · left
    refine ⟨List.isEmpty_iff.mp he, ?_⟩
    rw [validate_eq spec n k h d u bs hn hk hh hd hu hb, if_pos he]
  · right
    refine ⟨fun hc => he (by rw [hc]; rfl), ?_⟩
    rw [validate_eq spec n k h d u bs hn hk hh hd hu hb, if_neg he]

theorem c1_witness :
    ∃ n k h d u bs : List String,
      nameErrs validSpec = .ok n ∧ kwErrs validSpec = .ok k ∧
      headlineErrs validSpec = .ok h ∧ descriptionErrs validSpec = .ok d ∧
      urlErrs validSpec = .ok u ∧ bidErrs validSpec = .ok bs ∧
      ((n ++ budgetErrs validSpec ++ k ++ h ++ d ++ u ++ bs = [] ∧
          validate_campaign_spec validSpec = .ok validSpec) ∨
        (n ++ budgetErrs validSpec ++ k ++ h ++ d ++ u ++ bs ≠ [] ∧
          validate_campaign_spec validSpec =
            .error (.validationError
              (pyJoin "; " (n ++ budgetErrs validSpec ++ k ++ h ++ d ++ u ++ bs))))) :=
  c1_amended validSpec (by decide)

theorem nameErrs_nil (spec : CampaignSpec) (nm : String)
    (hn : spec.campaign_name = some (.strV nm)) (h1 : ¬ pyStrip nm = "")
    (h2 : strLen (pyStrip nm) ≤ 255) : nameErrs spec = .ok [] := by
  simp [nameErrs, hn, h1, Nat.not_lt.mpr h2]

theorem budgetErrs_nil (spec : CampaignSpec) (b : Int)
    (hb : spec.budget_amount_micros = some (.intV b)) (h : 0 < b) :
    budgetErrs spec = [] := by
  simp [budgetErrs, hb, isNum, numVal]
  omega

theorem kwCheck_nil (i : Nat) (kw : Value) (h : kwOk kw = true) : kwCheck i kw = .ok [] := by
  rcases kw with _ | b | n | s | xs | kvs
  case strV => simp_all [kwOk, kwCheck]
  case dictV =>
    simp only [kwOk, Bool.and_eq_true] at h
    obtain ⟨ht, hmt⟩ := h
    cases hpg : pyGet kvs "text" (.strV "") <;> rw [hpg] at ht <;> simp_all [kwCheck]
  all_goals simp [kwCheck]

theorem kwLoop_nil (items : List Value) :
    ∀ i, (∀ kw ∈ items, kwOk kw = true) → kwLoop i items = .ok [] := by
  induction items with
  | nil => exact fun i _ => rfl
  | cons kw rest ih =>
      intro i h
      have h1 := kwCheck_nil i kw (h kw (by simp))
      have h2 := ih (i + 1) (fun x hx => h x (by simp [hx]))
      simp [kwLoop, Bind.bind, Except.bind, h1, h2]

theorem kwErrs_nil (spec : CampaignSpec) (ks : List Value)
    (hk : spec.keywords = some (.listV ks)) (hne : ks ≠ [])
    (hall : ∀ kw ∈ ks, kwOk kw = true) : kwErrs spec = .ok [] := by
  have hf : pyFalsy (Value.listV ks) = false := by
    simp [pyFalsy, hne]
  have hlen : (ks.length == 0) = false := by
    simp [List.length_eq_zero, hne]
  simp [kwErrs, hk, hf, pyIter, pyIterL, Bind.bind, Except.bind, hlen,
        kwLoop_nil ks 0 hall]

theorem assetLoop_nil (limit : Nat) (ts : List String) :
    ∀ (i : Nat) (seen : List String), ts.Nodup →
      (∀ t ∈ ts, ¬ t = "" ∧ strLen t ≤ limit ∧ t ∉ seen) →
      assetLoop limit i seen ts = [] := by
  induction ts with
  | nil => exact fun i seen _ _ => rfl
  | cons t rest ih =>
      intro i seen hnd hall
      obtain ⟨h1, h2, h3⟩ := hall t (by simp)
      have hmsg : assetMsg limit i t seen = [] := by
        simp [assetMsg, h1, Nat.not_lt.mpr h2, h3]
      have hrest : assetLoop limit (i + 1) (seen ++ [t]) rest = [] := by
        refine ih (i + 1) (seen ++ [t]) (List.nodup_cons.mp hnd).2 ?_
        intro x hx
        obtain ⟨g1, g2, g3⟩ := hall x (by simp [hx])
        refine ⟨g1, g2, ?_⟩
        simp only [List.mem_append, List.mem_singleton]
        rintro (hc | hc)
        · exact g3 hc
        · exact (List.nodup_cons.mp hnd).1 (hc ▸ hx)
      simp [assetLoop, hmsg, hrest]

theorem assetFieldErrs_nil (label plural : String) (mc lim : Nat) (hs : List Value)
    (hmc : mc ≤ hs.length)
    (hnd : (hs.map fun x => pyStrip (pyStr x)).Nodup)
    (hall : ∀ t ∈ hs.map fun x => pyStrip (pyStr x), ¬ t = "" ∧ strLen t ≤ lim) :
    assetFieldErrs label plural mc lim (.listV hs) = .ok [] := by
  have hloop : assetLoop lim 0 [] (hs.map fun x => pyStrip (pyStr x)) = [] := by
    refine assetLoop_nil lim _ 0 [] hnd ?_
    intro t ht
    exact ⟨(hall t ht).1, (hall t ht).2, by simp⟩
  simp [assetFieldErrs, pyIter, pyIterL, Bind.bind, Except.bind, Nat.not_lt.mpr hmc, hloop]

theorem urlErrs_nil (spec : CampaignSpec) (u : String)
    (hu : spec.final_url = some (.strV u)) (hsch : urlScheme (pyStrip u) = "https") :
    urlErrs spec = .ok [] := by
  have hne : ¬ pyStrip u = "" := by
    intro he
    rw [he] at hsch
    exact absurd hsch (by decide)
  simp [urlErrs, hu, hne, hsch]

theorem bidErrs_nil (spec : CampaignSpec) (s : String)
    (hb : spec.bidding_strategy = some (.strV s))
    (hmem : pyUpper s ∈ (["MAXIMIZE_CLICKS", "MAXIMIZE_CONVERSIONS", "TARGET_CPA", "MANUAL_CPC"] : List String)) :
    bidErrs spec = .ok [] := by
  simp only [List.mem_cons, List.mem_singleton, List.not_mem_nil, or_false] at hmem
  simp [bidErrs, hb, hmem]

/-- C2: a spec with a trimmed non-empty campaign name of at most 255
characters, a positive integer budget, a non-empty keyword list of valid
keywords, exactly 3 mutually unique (post-trim) non-empty headlines of at
most 30 characters, at least 2 such descriptions of at most 90 characters,
an https final URL and a valid (case-insensitive) bidding strategy passes
validate and is returned unchanged — validation is pure and read-only in
this embedding. -/
theorem c2_valid_passes (spec : CampaignSpec) (nm : String) (b : Int)
    (ks hs ds : List Value) (u sb : String)
    (hnm : spec.campaign_name = some (.strV nm))
    (hnm1 : ¬ pyStrip nm = "") (hnm2 : strLen (pyStrip nm) ≤ 255)
    (hb : spec.budget_amount_micros = some (.intV b)) (hpos : 0 < b)
    (hk : spec.keywords = some (.listV ks)) (hkne : ks ≠ [])
    (hkall : ∀ kw ∈ ks, kwOk kw = true)
    (hh : spec.headlines = some (.listV hs)) (hh3 : hs.length = 3)
    (hhnd : (hs.map fun x => pyStrip (pyStr x)).Nodup)
    (hhall : ∀ t ∈ hs.map fun x => pyStrip (pyStr x), ¬ t = "" ∧ strLen t ≤ 30)
    (hd : spec.descriptions = some (.listV ds)) (hd2 : 2 ≤ ds.length)
    (hdnd : (ds.map fun x => pyStrip (pyStr x)).Nodup)
    (hdall : ∀ t ∈ ds.map fun x => pyStrip (pyStr x), ¬ t = "" ∧ strLen t ≤ 90)
    (hu : spec.final_url = some (.strV u)) (husch : urlScheme (pyStrip u) = "https")
    (hsb : spec.bidding_strategy = some (.strV sb))
    (hsbm : pyUpper sb ∈ (["MAXIMIZE_CLICKS", "MAXIMIZE_CONVERSIONS", "TARGET_CPA", "MANUAL_CPC"] : List String)) :
    validate_campaign_spec spec = .ok spec := by
  have e1 := nameErrs_nil spec nm hnm hnm1 hnm2
  have e2 := budgetErrs_nil spec b hb hpos
  have e3 := kwErrs_nil spec ks hk hkne hkall
  have e4 : headlineErrs spec = .ok [] := by
    rw [headlineErrs, hh]
    exact assetFieldErrs_nil "Headline" "headlines" 3 30 hs (by omega) hhnd hhall
  have e5 : descriptionErrs spec = .ok [] := by
    rw [descriptionErrs, hd]
    exact assetFieldErrs_nil "Description" "descriptions" 2 90 ds hd2 hdnd hdall
  have e6 := urlErrs_nil spec u hu husch
  have e7 := bidErrs_nil spec sb hsb hsbm
  rw [validate_eq spec [] [] [] [] [] [] e1 e3 e4 e5 e6 e7]
  simp [e2]

theorem c2_witness : validate_campaign_spec validSpec = .ok validSpec := by
  refine c2_valid_passes validSpec "Summer Sale" 5000000
    [.dictV [("text", .strV "running shoes"), ("match_type", .strV "BROAD")]]
    [.strV "One", .strV "Two", .strV "Three"]
    [.strV "First description", .strV "Second description"]
    "https://example.com" "MAXIMIZE_CLICKS"
    rfl (by decide) (by decide) rfl (by decide) rfl (List.cons_ne_nil _ _) (by decide)
    rfl (by decide) (by decide) (by decide) rfl (by decide) (by decide) (by decide)
    rfl (by decide) rfl (by decide)

theorem assetMsg_index (limit i : Nat) (t : String) (seen : List String) :
    ∀ e ∈ assetMsg limit i t seen, AssetErr.index e = i := by
  unfold assetMsg
  split
  · simp [AssetErr.index]
  · split
    · simp [AssetErr.index]
    · split
      · simp [AssetErr.index]
      · simp

theorem assetMsg_length (limit i : Nat) (t : String) (seen : List String) :
    (assetMsg limit i t seen).length ≤ 1 := by
  unfold assetMsg
  split
  · simp
  · split
    · simp
    · split <;> simp

theorem assetLoop_index_lb (limit : Nat) (ts : List String) :
    ∀ (i : Nat) (seen : List String), ∀ e ∈ assetLoop limit i seen ts, i ≤ AssetErr.index e := by
  induction ts with
  | nil => intro i seen e he; simp [assetLoop] at he
  | cons t rest ih =>
      intro i seen e he
      simp only [assetLoop, List.mem_append] at he
      rcases he with he | he
      · exact Nat.le_of_eq (assetMsg_index limit i t seen e he).symm
      · have := ih (i + 1) (seen ++ [t]) e he
        omega

theorem assetLoop_countP_le_one (limit : Nat) (ts : List String) :
    ∀ (i j : Nat) (seen : List String),
      (assetLoop limit i seen ts).countP (fun e => AssetErr.index e == j) ≤ 1 := by
  induction ts with
  | nil => intro i j seen; simp [assetLoop]
  | cons t rest ih =>
      intro i j seen
      simp only [assetLoop, List.countP_append]
      by_cases hji : j = i
      · rw [hji]
        have h1 : (assetMsg limit i t seen).countP (fun e => AssetErr.index e == i)
            ≤ (assetMsg limit i t seen).length := List.countP_le_length _
        have h2 : (assetLoop limit (i + 1) (seen ++ [t]) rest).countP
            (fun e => AssetErr.index e == i) = 0 := by
          refine List.countP_eq_zero.mpr ?_
          intro e he
          have := assetLoop_index_lb limit rest (i + 1) (seen ++ [t]) e he
          simp only [beq_iff_eq]
          omega
        have h3 := assetMsg_length limit i t seen
        omega
      · have h1 : (assetMsg limit i t seen).countP (fun e => AssetErr.index e == j) = 0 := by
          refine List.countP_eq_zero.mpr ?_
          intro e he
          have := assetMsg_index limit i t seen e he
          simp only [beq_iff_eq]
          omega
        have h2 := ih (i + 1) j (seen ++ [t])
        omega

/-- C3 counterexample: in an otherwise valid spec with a missing budget,
headline 1 is both over 30 characters and a (post-trim) duplicate of
headline 0, yet the aggregated message reports only its over-length
violation — the elif chain emits at most one message per element, so a
single element carrying several violations does not contribute a message
for each. -/
theorem c3_counterexample :
    validate_campaign_spec doubleFaultSpec =
      .error (.validationError
        "budget_amount_micros is required; Headline 0 exceeds 30 chars (got 31); Headline 1 exceeds 30 chars (got 31)") ∧
    assetLoop 30 0 [] [a31, a31, "Buy now"] = [.tooLong 0 31, .tooLong 1 31] :=
  ⟨rfl, by decide⟩

/-- C3 (amended): for every spec that violates two or more of the
field-level rules, validate raises a single aggregated error enumerating
the violation messages of every field, joined in field order — but each
headline/description element contributes at most one message, the first
applicable of its empty / over-length / duplicate violations. -/
theorem c3_amended (spec : CampaignSpec) (n k h d u bs : List String)
    (hn : nameErrs spec = .ok n) (hk : kwErrs spec = .ok k)
    (hh : headlineErrs spec = .ok h) (hd : descriptionErrs spec = .ok d)
    (hu : urlErrs spec = .ok u) (hb : bidErrs spec = .ok bs)
    (htwo : 2 ≤ ([n, budgetErrs spec, k, h, d, u, bs].filter (fun l => !l.isEmpty)).length) :
    validate_campaign_spec spec =
      .error (.validationError (pyJoin "; " (n ++ budgetErrs spec ++ k ++ h ++ d ++ u ++ bs))) ∧
    ∀ (limit i j : Nat) (seen ts : List String),
      (assetLoop limit i seen ts).countP (fun e => AssetErr.index e == j) ≤ 1 := by
  constructor
  · have hne : n ++ budgetErrs spec ++ k ++ h ++ d ++ u ++ bs ≠ [] := by
      intro hcc
      simp only [List.append_eq_nil] at hcc
      obtain ⟨⟨⟨⟨⟨⟨h1, h2⟩, h3⟩, h4⟩, h5⟩, h6⟩, h7⟩ := hcc
      rw [h1, h2, h3, h4, h5, h6, h7] at htwo
      simp at htwo
    rw [validate_eq spec n k h d u bs hn hk hh hd hu hb,
        if_neg (fun hc => hne (List.isEmpty_iff.mp hc))]
  · exact fun limit i j seen ts => assetLoop_countP_le_one limit ts i j seen

theorem c3_witness :
    validate_campaign_spec doubleFaultSpec =
      .error (.validationError
        (pyJoin "; " (([] : List String) ++ budgetErrs doubleFaultSpec ++ [] ++
          ["Headline 0 exceeds 30 chars (got 31)", "Headline 1 exceeds 30 chars (got 31)"] ++
          [] ++ [] ++ []))) ∧
    ∀ (limit i j : Nat) (seen ts : List String),
      (assetLoop limit i seen ts).countP (fun e => AssetErr.index e == j) ≤ 1 :=
  c3_amended doubleFaultSpec [] []
    ["Headline 0 exceeds 30 chars (got 31)", "Headline 1 exceeds 30 chars (got 31)"]
    [] [] [] rfl rfl rfl rfl rfl rfl (by decide)

theorem assetLoop_dup_mem (limit : Nat) (ts : List String) :
    ∀ (i j : Nat) (seen : List String) (hj : j < ts.length),
      ts.get ⟨j, hj⟩ ≠ "" → strLen (ts.get ⟨j, hj⟩) ≤ limit →
      ts.get ⟨j, hj⟩ ∈ seen ++ ts.take j →
      AssetErr.dupA (i + j) (ts.get ⟨j, hj⟩) ∈ assetLoop limit i seen ts := by
  induction ts with
  | nil => intro i j seen hj; exact absurd hj (by simp)
  | cons t rest ih =>
      intro i j seen hj h1 h2 h3
      cases j with
      | zero =>
          have hget : (t :: rest).get ⟨0, hj⟩ = t := rfl
          rw [hget] at h1 h2 h3
          rw [List.take_zero, List.append_nil] at h3
          simp only [assetLoop, List.mem_append]
          left
          rw [Nat.add_zero, hget]
          simp [assetMsg, h1, Nat.not_lt.mpr h2, h3]
      | succ j' =>
          have hj' : j' < rest.length := by simpa using hj
          have hget : (t :: rest).get ⟨j' + 1, hj⟩ = rest.get ⟨j', hj'⟩ := rfl
          rw [hget] at h1 h2 h3 ⊢
          rw [List.take_succ_cons] at h3
          have h3' : rest.get ⟨j', hj'⟩ ∈ (seen ++ [t]) ++ rest.take j' := by
            simpa [List.append_assoc] using h3
          have hrec := ih (i + 1) j' (seen ++ [t]) hj' h1 h2 h3'
          simp only [assetLoop, List.mem_append]
          right
          have hidx : i + (j' + 1) = (i + 1) + j' := by omega
          rw [hidx]
          exact hrec

theorem assetLoop_dup_not_mem (limit : Nat) (ts : List String) :
    ∀ (i p : Nat) (seen : List String) (s : String),
      (∀ hp : p < ts.length, ts.get ⟨p, hp⟩ ∉ seen ++ ts.take p) →
      AssetErr.dupA (i + p) s ∉ assetLoop limit i seen ts := by
  induction ts with
  | nil => intro i p seen s hfo; simp [assetLoop]
  | cons t rest ih =>
      intro i p seen s hfo hmem
      simp only [assetLoop, List.mem_append] at hmem
      rcases hmem with hm | hm
      · have hidx := assetMsg_index limit i t seen _ hm
        simp only [AssetErr.index] at hidx
        have hp0 : p = 0 := by omega
        subst hp0
        have hnot := hfo (by simp)
        rw [List.take_zero, List.append_nil] at hnot
        unfold assetMsg at hm
        split_ifs at hm with hc1 hc2 hc3 <;> simp_all
      · cases p with
        | zero =>
            have := assetLoop_index_lb limit rest (i + 1) (seen ++ [t]) _ hm
            simp only [AssetErr.index] at this
            omega
        | succ p' =>
            have hfo' : ∀ hp : p' < rest.length,
                rest.get ⟨p', hp⟩ ∉ (seen ++ [t]) ++ rest.take p' := by
              intro hp hcmem
              refine hfo (show p' + 1 < (t :: rest).length by simpa using hp) ?_
              rw [List.take_succ_cons]
              show rest.get ⟨p', hp⟩ ∈ seen ++ (t :: rest.take p')
              simpa [List.append_assoc] using hcmem
            have hidx : i + (p' + 1) = (i + 1) + p' := by omega
            rw [hidx] at hm
            exact ih (i + 1) p' (seen ++ [t]) s hfo' hm

/-- C4 counterexample: a spec whose two headlines are both (trivially
identical) empty strings fails only with the too-few-headlines message — the
error does not identify any duplicate index, because the duplicate scan runs
only when there are at least 3 headlines. -/
theorem c4_counterexample :
    validate_campaign_spec twoDupHeadlinesSpec =
      .error (.validationError "At least 3 headlines required (got 2)") := rfl

/-- C4 (amended): in a well-shaped spec with at least 3 headlines, whenever a
(post-trim) headline is non-empty, at most 30 characters and textually
identical to an earlier post-trim headline, the loop flags exactly that
index as a duplicate, a first occurrence is never flagged, and validate
fails. (A repeat that is itself empty or over-long is reported as such, not
as a duplicate, and a duplicate pair within fewer than 3 headlines is
reported only as too few headlines.) -/
theorem c4_amended (spec : CampaignSpec) (hw : wellShaped spec = true)
    (hs : List Value) (hhl : spec.headlines = some (.listV hs)) (hlen : 3 ≤ hs.length)
    (ts : List String) (hts : ts = hs.map fun x => pyStrip (pyStr x)) :
    (∀ (j : Nat) (hj : j < ts.length),
        ts.get ⟨j, hj⟩ ≠ "" → strLen (ts.get ⟨j, hj⟩) ≤ 30 → ts.get ⟨j, hj⟩ ∈ ts.take j →
        AssetErr.dupA j (ts.get ⟨j, hj⟩) ∈ assetLoop 30 0 [] ts) ∧
    (∀ (p : Nat) (s : String),
        (∀ hp : p < ts.length, ts.get ⟨p, hp⟩ ∉ ts.take p) →
        AssetErr.dupA p s ∉ assetLoop 30 0 [] ts) ∧
    ((∃ j, ∃ hj : j < ts.length,
        ts.get ⟨j, hj⟩ ≠ "" ∧ strLen (ts.get ⟨j, hj⟩) ≤ 30 ∧ ts.get ⟨j, hj⟩ ∈ ts.take j) →
      ∃ msg, validate_campaign_spec spec = .error (.validationError msg)) := by
  have hmem : ∀ (j : Nat) (hj : j < ts.length),
      ts.get ⟨j, hj⟩ ≠ "" → strLen (ts.get ⟨j, hj⟩) ≤ 30 → ts.get ⟨j, hj⟩ ∈ ts.take j →
      AssetErr.dupA j (ts.get ⟨j, hj⟩) ∈ assetLoop 30 0 [] ts := by
    intro j hj h1 h2 h3
    have := assetLoop_dup_mem 30 ts 0 j [] hj h1 h2 (by simpa using h3)
    simpa using this
  refine ⟨hmem, ?_, ?_⟩
  · intro p s hfo
    have := assetLoop_dup_not_mem 30 ts 0 p [] s (by intro hp; simpa using hfo hp)
    simpa using this
  · rintro ⟨j, hj, h1, h2, h3⟩
    have hdup := hmem j hj h1 h2 h3
    have hloopne : assetLoop 30 0 [] ts ≠ [] := by
      intro hc
      rw [hc] at hdup
      simp at hdup
    have hh : headlineErrs spec =
        .ok ((assetLoop 30 0 [] ts).map (renderAsset "Headline" 30)) := by
      rw [headlineErrs, hhl]
      unfold assetFieldErrs
      simp only [Option.getD, pyIter, pyIterL, Bind.bind, Except.bind]
      rw [if_neg (Nat.not_lt.mpr hlen), ← hts]
    unfold wellShaped at hw
    simp only [Bool.and_eq_true] at hw
    obtain ⟨⟨⟨⟨⟨g1, g2⟩, g3⟩, g4⟩, g5⟩, g6⟩ := hw
    obtain ⟨n, hn⟩ := nameErrs_ok spec g1
    obtain ⟨k, hk⟩ := kwErrs_ok spec g2
    obtain ⟨d, hd⟩ := descriptionErrs_ok spec g4
    obtain ⟨u, hu⟩ := urlErrs_ok spec g5
    obtain ⟨bs, hb⟩ := bidErrs_ok spec g6
    have hval : validate_campaign_spec spec =
        .error (.validationError (pyJoin "; "
          (n ++ budgetErrs spec ++ k ++
            (assetLoop 30 0 [] ts).map (renderAsset "Headline" 30) ++ d ++ u ++ bs))) := by
      rw [validate_eq spec n k _ d u bs hn hk hh hd hu hb, if_neg ?_]
      intro hc
      have hemp := List.isEmpty_iff.mp hc
      simp only [List.append_eq_nil] at hemp
      obtain ⟨⟨⟨⟨⟨⟨e1, e2⟩, e3⟩, e4⟩, e5⟩, e6⟩, e7⟩ := hemp
      exact hloopne (List.map_eq_nil_iff.mp e4)
    exact ⟨_, hval⟩

theorem c4_witness :
    (∀ (j : Nat) (hj : j < (["Buy", "Now", "Buy"] : List String).length),
        (["Buy", "Now", "Buy"] : List String).get ⟨j, hj⟩ ≠ "" →
        strLen ((["Buy", "Now", "Buy"] : List String).get ⟨j, hj⟩) ≤ 30 →
        (["Buy", "Now", "Buy"] : List String).get ⟨j, hj⟩ ∈
          (["Buy", "Now", "Buy"] : List String).take j →
        AssetErr.dupA j ((["Buy", "Now", "Buy"] : List String).get ⟨j, hj⟩) ∈
          assetLoop 30 0 [] ["Buy", "Now", "Buy"]) ∧
    (∀ (p : Nat) (s : String),
        (∀ hp : p < (["Buy", "Now", "Buy"] : List String).length,
          (["Buy", "Now", "Buy"] : List String).get ⟨p, hp⟩ ∉
            (["Buy", "Now", "Buy"] : List String).take p) →
        AssetErr.dupA p s ∉ assetLoop 30 0 [] ["Buy", "Now", "Buy"]) ∧
    ((∃ j, ∃ hj : j < (["Buy", "Now", "Buy"] : List String).length,
        (["Buy", "Now", "Buy"] : List String).get ⟨j, hj⟩ ≠ "" ∧
        strLen ((["Buy", "Now", "Buy"] : List String).get ⟨j, hj⟩) ≤ 30 ∧
        (["Buy", "Now", "Buy"] : List String).get ⟨j, hj⟩ ∈
          (["Buy", "Now", "Buy"] : List String).take j) →
      ∃ msg, validate_campaign_spec dupHeadlineSpec = .error (.validationError msg)) :=
  c4_amended dupHeadlineSpec (by decide) [.strV "Buy", .strV "Now", .strV "Buy"] rfl
    (by decide) ["Buy", "Now", "Buy"] (by decide)

/-- C5: normalize_keywords maps each element in order — a dict keyword to
its trimmed, 80-capped text with its upper-cased (or defaulted-on-absence
"BROAD") match type, a plain string to a BROAD keyword, and silently drops
every other shape; in particular the spec's worked example holds. The
hypothesis only excludes the dict elements whose present non-string
match_type would make the Python code raise. -/
theorem c5_normalize (ks : List Value) (hm : ∀ kw ∈ ks, mtShapeOk kw = true) :
    normalize_keywords ks = .ok (ks.filterMap normOne) ∧
    normalize_keywords
        [.dictV [("text", .strV " running shoes "), ("match_type", .strV "broad")],
         .strV "tennis"] =
      .ok [⟨"running shoes", "BROAD"⟩, ⟨"tennis", "BROAD"⟩] := by
  refine ⟨?_, by decide⟩
  induction ks with
  | nil => rfl
  | cons kw rest ih =>
      have hrest := ih (fun x hx => hm x (by simp [hx]))
      have hkw := hm kw (by simp)
      rcases kw with _ | b | n | s | xs | kvs
      case dictV =>
        simp only [mtShapeOk] at hkw
        cases hpg : pyGet kvs "match_type" (.strV "BROAD") <;> rw [hpg] at hkw <;>
          simp_all [normalize_keywords, normOne, hpg, Bind.bind, Except.bind]
      all_goals simp_all [normalize_keywords, normOne, Bind.bind, Except.bind]

theorem c5_witness :
    normalize_keywords
        [Value.dictV [("text", .strV " running shoes "), ("match_type", .strV "broad")],
         Value.strV "tennis"] =
      .ok (([Value.dictV [("text", .strV " running shoes "), ("match_type", .strV "broad")],
             Value.strV "tennis"] : List Value).filterMap normOne) ∧
    normalize_keywords
        [Value.dictV [("text", .strV " running shoes "), ("match_type", .strV "broad")],
         Value.strV "tennis"] =
      .ok [⟨"running shoes", "BROAD"⟩, ⟨"tennis", "BROAD"⟩] :=
  c5_normalize
    [Value.dictV [("text", .strV " running shoes "), ("match_type", .strV "broad")],
     Value.strV "tennis"] (by decide)
